import Mathlib

/-!
  # Credit ledger and generation/debit protocol of the editimageai backends

  Shallow embedding of the credit-accounting logic of the near-duplicate
  Express/Next server variants in this repository, restricted to one
  account (all claims are per-account):

  * the balance, ledger-entry log and generation-record log
    (tables user_profiles.credits, credit_transactions,
    headshot_generations / image_edits);
  * the Postgres function public.update_user_credits, translated from the
    database schema document embedded at the end of server.js;
  * the POST /generate-headshot handlers of server_with_auth.js (reserve
    first, refund in catch), server_with_credits.js (execute first, inline
    debit), the third document of api/auth/session-status.js (execute
    first, RPC debit, failed record in catch) and
    api/auth/generate-headshot.js;
  * the checkout.session.completed Stripe webhook of server_with_credits.js
    and the credit purchase routes;
  * an interleaving semantics for two concurrent requests of the
    check-then-act variant in server_with_auth.js (the server (1try).js
    document, POST /api/generate-headshot).

  Each handler is a function from the store and the outcomes of its
  external calls (file upload present, provider result, refund-call fault)
  to the final store, the HTTP response, the ordered list of store events
  and the console log lines it emits.
-/

/-- One row of the credit_transactions log: a signed credit delta with its
category (usage, refund, purchase, bonus) and free-text description. -/
structure LedgerEntry where
  delta : Int
  category : String
  description : String
  deriving DecidableEq

/-- One row of headshot_generations / image_edits: result reference when
the provider succeeded, credits charged, and the status string. -/
structure GenerationRecord where
  imageUrl : Option String
  creditsUsed : Int
  status : String
  deriving DecidableEq

/-- The persistent state of one account: its stored balance
(user_profiles.credits) and the two append-only logs. -/
structure Store where
  balance : Int
  entries : List LedgerEntry
  gens : List GenerationRecord
  deriving DecidableEq

/-- Sum of the signed deltas of all ledger entries of the account. -/
def entriesSum (st : Store) : Int :=
  (st.entries.map fun e => e.delta).sum

/-- The Postgres function public.update_user_credits, translated from the
database schema document embedded in server.js (its section 8, the
CREATE OR REPLACE FUNCTION block): read the current credits; when
credit_change is negative and current_credits + credit_change is below
zero, return false having changed nothing; otherwise update
user_profiles.credits by credit_change and insert one credit_transactions
row whose amount is credit_change, both inside the same function body, and
return true. Insufficiency is signalled only through the boolean result,
never through the error field of the RPC response, so a caller that
destructures only the error field cannot observe it. -/
def update_user_credits (st : Store) (credit_change : Int)
    (transaction_type : String) (description : String) : Store × Bool :=
  if credit_change < 0 ∧ st.balance + credit_change < 0 then
    (st, false)
  else
    ({ st with
       balance := st.balance + credit_change,
       entries := st.entries ++ [⟨credit_change, transaction_type, description⟩] }, true)

/-- Outcome of the external generation provider call (replicate.run):
either a result reference or a thrown error with its message. -/
inductive ProviderResult where
  | ok (url : String)
  | err (msg : String)
  deriving DecidableEq

/-- How the awaited refund RPC call behaves in the catch block of
server_with_auth.js / server_email_fixed.js: it can resolve normally, it
can resolve to a result object whose error field is set (the supabase
client reports database failures this way without throwing), or the await
itself can throw (network failure). -/
inductive RpcFault where
  | ok
  | errorResult
  | thrown
  deriving DecidableEq

/-- Store-touching events of one request, in execution order. -/
inductive Evt where
  | balanceCheck
  | providerCall
  | usageDebit
  | refundCredit
  | recordInsert
  deriving DecidableEq

/-- The HTTP response a handler sends: status code, main error or success
message, and the creditsRemaining field when the response carries one. -/
structure HttpResponse where
  status : Nat
  body : String
  creditsRemaining : Option Int
  deriving DecidableEq

/-- Result of running one request: final store, response, ordered store
events, and the console.error lines emitted. -/
structure RunResult where
  store : Store
  response : HttpResponse
  events : List Evt
  logs : List String
  deriving DecidableEq

/-- POST /generate-headshot of server_with_auth.js (first document, lines
271-386; server_email_fixed.js lines 345-460 is line-for-line the same
protocol): reject a missing file; reject when the profile read at
authentication shows fewer than 1 credit; call update_user_credits with
-1 first — the code destructures only the error field of the RPC result,
so the boolean the function returns is never inspected and a resolved
call always proceeds with whatever the function did; run the provider; on
success insert a completed record and answer 200 with the re-read
balance; on a thrown provider error the catch block awaits a +1 refund
RPC whose resolved result is discarded, logs only a thrown refund as
Refund error, and answers the generic 500 in every catch path. -/
def generateHeadshot_with_auth (st : Store) (hasFile : Bool)
    (provider : ProviderResult) (refundFault : RpcFault) : RunResult :=
  if ¬hasFile then
    ⟨st, ⟨400, "No image file uploaded", none⟩, [], []⟩
  else if st.balance < 1 then
    ⟨st, ⟨402, "Insufficient credits", none⟩, [.balanceCheck], []⟩
  else
    let st1 := (update_user_credits st (-1) "usage" "Professional headshot generation").1
    match provider with
    | .ok url =>
        let st2 := { st1 with gens := st1.gens ++ [⟨some url, 1, "completed"⟩] }
        ⟨st2, ⟨200, "Professional headshot generated successfully!", some st2.balance⟩,
          [.balanceCheck, .usageDebit, .providerCall, .recordInsert], []⟩
    | .err _ =>
        match refundFault with
        | .ok =>
            let st2 := (update_user_credits st1 1 "refund" "Refund for failed generation").1
            ⟨st2, ⟨500, "Failed to generate headshot", none⟩,
              [.balanceCheck, .usageDebit, .providerCall, .refundCredit],
              ["Error generating headshot"]⟩
        | .errorResult =>
            ⟨st1, ⟨500, "Failed to generate headshot", none⟩,
              [.balanceCheck, .usageDebit, .providerCall],
              ["Error generating headshot"]⟩
        | .thrown =>
            ⟨st1, ⟨500, "Failed to generate headshot", none⟩,
              [.balanceCheck, .usageDebit, .providerCall],
              ["Error generating headshot", "Refund error"]⟩

/-- POST /generate-headshot of server_with_credits.js (first document,
lines 503-647): reject when the profile read at authentication shows fewer
than 1 credit, answering 400 with creditsRemaining set to that balance;
reject a missing file; run the provider first; on success write the
balance down to the stale authentication read minus one directly on
user_profiles (no ledger entry is inserted anywhere in this route), insert
a completed record, and answer 200; on a thrown provider error the catch
block changes no state and answers 500 with creditsRemaining again set to
the balance read at authentication. -/
def generateHeadshot_with_credits (st : Store) (hasFile : Bool)
    (provider : ProviderResult) : RunResult :=
  if st.balance < 1 then
    ⟨st, ⟨400, "Insufficient credits. You need at least 1 credit to generate a headshot.",
      some st.balance⟩, [.balanceCheck], []⟩
  else if ¬hasFile then
    ⟨st, ⟨400, "No image file uploaded", none⟩, [.balanceCheck], []⟩
  else
    match provider with
    | .ok url =>
        let st1 := { st with balance := st.balance - 1 }
        let st2 := { st1 with gens := st1.gens ++ [⟨some url, 1, "completed"⟩] }
        ⟨st2, ⟨200, "Professional headshot generated successfully!", some (st.balance - 1)⟩,
          [.balanceCheck, .providerCall, .usageDebit, .recordInsert], []⟩
    | .err _ =>
        ⟨st, ⟨500, "Failed to generate headshot", some st.balance⟩,
          [.balanceCheck, .providerCall], ["Headshot generation error"]⟩

/-- POST /generate-headshot of the third document in
api/auth/session-status.js (lines 446-549): reject a missing file; reject
fewer than 1 credit; run the provider first; on success deduct through
update_user_credits — the code logs and continues on a reported transport
error and never inspects the boolean the function returns — insert a
completed record and answer 200 with the stale balance minus one; on a
thrown provider error the catch block inserts a failed GenerationRecord
with 0 credits used and no result reference and answers a 500 that carries
no balance field. -/
def generateHeadshot_session_status (st : Store) (hasFile : Bool)
    (provider : ProviderResult) : RunResult :=
  if ¬hasFile then
    ⟨st, ⟨400, "No image file uploaded", none⟩, [], []⟩
  else if st.balance < 1 then
    ⟨st, ⟨400, "Insufficient credits", none⟩, [.balanceCheck], []⟩
  else
    match provider with
    | .ok url =>
        let st1 := (update_user_credits st (-1) "usage" "Generated professional headshot").1
        let st2 := { st1 with gens := st1.gens ++ [⟨some url, 1, "completed"⟩] }
        ⟨st2, ⟨200, "Professional headshot generated successfully!", some (st.balance - 1)⟩,
          [.balanceCheck, .providerCall, .usageDebit, .recordInsert], []⟩
    | .err _ =>
        let st1 := { st with gens := st.gens ++ [⟨none, 0, "failed"⟩] }
        ⟨st1, ⟨500, "Failed to generate headshot", none⟩,
          [.balanceCheck, .providerCall, .recordInsert], ["Error generating headshot"]⟩

/-- The handler of api/auth/generate-headshot.js (lines 16-92): reject
fewer than 1 credit (line 42) before the file check; run the provider;
deduct through update_user_credits with the awaited result — both its
error field and the boolean the function returns — entirely discarded;
insert a completed record; answer 200 with the stale balance minus one. A
thrown provider error reaches the outer catch and answers a generic 500
with no state change. -/
def generateHeadshot_api_auth (st : Store) (hasFile : Bool)
    (provider : ProviderResult) : RunResult :=
  if st.balance < 1 then
    ⟨st, ⟨400, "Insufficient credits", none⟩, [.balanceCheck], []⟩
  else if ¬hasFile then
    ⟨st, ⟨400, "No image file uploaded", none⟩, [.balanceCheck], []⟩
  else
    match provider with
    | .ok url =>
        let st1 := (update_user_credits st (-1) "usage" "Generated professional headshot").1
        let st2 := { st1 with gens := st1.gens ++ [⟨some url, 1, "completed"⟩] }
        ⟨st2, ⟨200, "Professional headshot generated successfully!", some (st.balance - 1)⟩,
          [.balanceCheck, .providerCall, .usageDebit, .recordInsert], []⟩
    | .err _ =>
        ⟨st, ⟨500, "Failed to generate headshot", none⟩,
          [.balanceCheck, .providerCall], ["Error generating headshot"]⟩

/-- The checkout.session.completed branch of the Stripe webhook handler in
server_with_credits.js (second document, lines 692-733): when the metadata
credits and quantity are both non-zero it reads user_profiles.credits and
writes back credits + credits times quantity. No row is inserted into any
transaction table. The caller that creates the session validates quantity
at least 1 and takes credits from a fixed positive plan table, so both are
embedded as naturals. -/
def stripe_webhook_checkout_completed (st : Store) (credits quantity : Nat) : Store :=
  if credits ≠ 0 ∧ quantity ≠ 0 then
    { st with balance := st.balance + (credits : Int) * (quantity : Int) }
  else st

/-- POST /api/purchase-credits of server_with_credits.js (first document,
lines 320-420): insert a credit_transactions row recording the purchased
package, then write user_profiles.credits up to the stale authentication
read plus the package credits. Package credit counts come from the
credit_packages table, all positive, so the parameter is a natural. -/
def purchase_credits (st : Store) (pkgCredits : Nat) (pkgName : String) : Store :=
  { st with
    balance := st.balance + (pkgCredits : Int),
    entries := st.entries ++ [⟨(pkgCredits : Int), "purchase", pkgName⟩] }

/-- POST /api/credits/purchase of the session-status.js server document
(lines 381-420; the same route appears in the history.js server document):
reject a non-positive amount; otherwise add the amount through
update_user_credits — this caller does inspect the boolean data and fails
the request when it is false or the error field is set, in which case
nothing changes. -/
def credits_purchase (st : Store) (amount : Int) : Store :=
  if amount ≤ 0 then st
  else
    let d := update_user_credits st amount "purchase" "Purchased credits"
    if d.2 then d.1 else st

/-- Control state of one in-flight POST /api/generate-headshot request of
the server (1try).js document inside server_with_auth.js (lines 750-831),
between its atomic accesses to the store: it reads profiles.credits into a
local value, checks it against 1, runs the provider, writes the read value
minus one back as the new balance, and finally inserts a usage entry of
-1 into credit_transactions. -/
inductive ThreadState where
  | ready
  | gotCredits (r : Int)
  | running (r : Int)
  | writing (r : Int)
  | doneOk (remaining : Int)
  | doneInsufficient
  deriving DecidableEq

/-- One atomic step of a request of the server (1try).js variant against
the shared store. The balance check and the provider call touch no state
and are folded into the step that leaves gotCredits. -/
def threadStep (g : Store) (t : ThreadState) : Store × ThreadState :=
  match t with
  | .ready => (g, .gotCredits g.balance)
  | .gotCredits r => if r < 1 then (g, .doneInsufficient) else (g, .running r)
  | .running r => ({ g with balance := r - 1 }, .writing r)
  | .writing r =>
      ({ g with entries := g.entries ++ [⟨-1, "usage", "Generated professional headshot"⟩] },
        .doneOk (r - 1))
  | t => (g, t)

/-- Two concurrent requests of the server (1try).js variant sharing one
account store. -/
structure TwoThreads where
  store : Store
  t1 : ThreadState
  t2 : ThreadState
  deriving DecidableEq

/-- Advance the first thread when the scheduler picks true, else the
second. -/
def twoThreadsStep (s : TwoThreads) (pick : Bool) : TwoThreads :=
  if pick then
    let g := threadStep s.store s.t1
    ⟨g.1, g.2, s.t2⟩
  else
    let g := threadStep s.store s.t2
    ⟨g.1, s.t1, g.2⟩

/-- Run the two threads under an explicit interleaving schedule. -/
def runSched (s : TwoThreads) : List Bool → TwoThreads
  | [] => s
  | p :: ps => runSched (twoThreadsStep s p) ps

/-- The balance-mutating operations of the repository, at handler
granularity, for sequential (one request at a time) execution against one
account: account creation with the 10-credit starter bonus and its bonus
ledger entry (the handle_new_user trigger of the server.js schema
document, which server_with_credits.js signup mirrors), the purchase
paths, the
Stripe webhook credit, and the four generate-headshot variants, which
contain every usage debit and refund the sources perform. -/
inductive LedgerOp where
  | signup
  | purchasePackage (credits : Nat) (name : String)
  | purchaseRpc (amount : Int)
  | webhook (credits quantity : Nat)
  | genWithAuth (hasFile : Bool) (pr : ProviderResult) (rf : RpcFault)
  | genWithCredits (hasFile : Bool) (pr : ProviderResult)
  | genSessionStatus (hasFile : Bool) (pr : ProviderResult)
  | genApiAuth (hasFile : Bool) (pr : ProviderResult)
  deriving DecidableEq

/-- Apply one operation to the account state. -/
def applyOp (st : Store) : LedgerOp → Store
  | .signup => ⟨10, [⟨10, "bonus", "Welcome bonus - 10 free credits"⟩], []⟩
  | .purchasePackage c n => purchase_credits st c n
  | .purchaseRpc a => credits_purchase st a
  | .webhook c q => stripe_webhook_checkout_completed st c q
  | .genWithAuth f pr rf => (generateHeadshot_with_auth st f pr rf).store
  | .genWithCredits f pr => (generateHeadshot_with_credits st f pr).store
  | .genSessionStatus f pr => (generateHeadshot_session_status st f pr).store
  | .genApiAuth f pr => (generateHeadshot_api_auth st f pr).store

/-- Whether a usage debit is applied before the first provider-call event
of a request trace. -/
def debitAppliedBeforeProviderCall (evs : List Evt) : Bool :=
  (evs.takeWhile fun e => e != Evt.providerCall).contains Evt.usageDebit

/-- Generation records of the account carrying the given status. -/
def recordsWithStatus (st : Store) (s : String) : List GenerationRecord :=
  st.gens.filter fun g => g.status == s

theorem update_user_credits_apply (st : Store) (d : Int) (c de : String)
    (h : 0 ≤ d ∨ 0 ≤ st.balance + d) :
    update_user_credits st d c de =
      ({ st with
         balance := st.balance + d,
         entries := st.entries ++ [⟨d, c, de⟩] }, true) := by
  unfold update_user_credits
  rw [if_neg]
  rintro ⟨h1, h2⟩
  rcases h with h | h <;> omega

/-- C6: for every call to applyDelta — public.update_user_credits of the
server.js schema document — either the call returns true and the balance
update and the ledger-entry append both take effect (the new balance is
the old one plus the delta and exactly the one matching entry is appended,
generation records untouched), or the delta is negative and would
overdraw, the function returns false — its only insufficiency signal,
delivered in the data field, never the error field — and neither effect
takes place: the state is exactly unchanged. There is no outcome with the
balance changed but the entry missing or the entry written but the balance
unchanged. -/
theorem update_user_credits_atomic (st : Store) (d : Int) (c de : String) :
    ((update_user_credits st d c de).2 = true ∧
      (update_user_credits st d c de).1.balance = st.balance + d ∧
      (update_user_credits st d c de).1.entries = st.entries ++ [⟨d, c, de⟩] ∧
      (update_user_credits st d c de).1.gens = st.gens) ∨
    ((update_user_credits st d c de).2 = false ∧
      (update_user_credits st d c de).1 = st ∧
      d < 0 ∧ st.balance + d < 0) := by
  by_cases hg : d < 0 ∧ st.balance + d < 0
  · right
    unfold update_user_credits
    rw [if_pos hg]
    exact ⟨rfl, rfl, hg.1, hg.2⟩
  · left
    unfold update_user_credits
    rw [if_neg hg]
    exact ⟨rfl, rfl, rfl, rfl⟩

/-- C1: refuted on server_with_credits.js. In its POST /generate-headshot
a successful generation from balance 1 produces the event order
balance check, provider call, usage debit, record insert: the usage debit
is applied strictly after the provider call starts, while the
server_with_auth.js variant of the same route debits before calling the
provider. The claim that in every execution the debit precedes the
provider call is therefore false on the sources. -/
theorem with_credits_debits_after_provider :
    (generateHeadshot_with_credits ⟨1, [], []⟩ true (.ok "img")).events =
      [.balanceCheck, .providerCall, .usageDebit, .recordInsert] ∧
    debitAppliedBeforeProviderCall
      (generateHeadshot_with_credits ⟨1, [], []⟩ true (.ok "img")).events = false ∧
    Evt.providerCall ∈ (generateHeadshot_with_credits ⟨1, [], []⟩ true (.ok "img")).events ∧
    Evt.usageDebit ∈ (generateHeadshot_with_credits ⟨1, [], []⟩ true (.ok "img")).events ∧
    debitAppliedBeforeProviderCall
      (generateHeadshot_with_auth ⟨1, [], []⟩ true (.ok "img") .ok).events = true := by
  decide

/-- C2: refuted on the server (1try).js variant (POST
/api/generate-headshot in server_with_auth.js). Starting from balance 1,
the interleaving in which both requests read the balance before either
writes lets both pass the check, both run the provider, and both charge:
both threads finish in the success state, the final balance is 0, and two
usage entries of -1 were appended — two successful cost-1 debits against a
balance of 1, impossible under any serialization. -/
theorem one_try_concurrent_debits_both_succeed :
    (⟨1, [], []⟩ : Store).balance = 1 ∧
    (runSched ⟨⟨1, [], []⟩, .ready, .ready⟩
        [true, false, true, true, true, false, false, false]).t1 = .doneOk 0 ∧
    (runSched ⟨⟨1, [], []⟩, .ready, .ready⟩
        [true, false, true, true, true, false, false, false]).t2 = .doneOk 0 ∧
    (runSched ⟨⟨1, [], []⟩, .ready, .ready⟩
        [true, false, true, true, true, false, false, false]).store.balance = 0 ∧
    entriesSum (runSched ⟨⟨1, [], []⟩, .ready, .ready⟩
        [true, false, true, true, true, false, false, false]).store = -2 := by
  decide

/-- C4: refuted on the Stripe checkout.session.completed webhook of
server_with_credits.js. Delivering a paid session with 5 credits and
quantity 1 to an account with balance 0 and an empty ledger leaves the
balance at 5 while the sum of all ledger deltas stays 0: the balance
change is accompanied by no ledger entry and the reconciliation invariant
does not hold after the operation. -/
theorem webhook_credits_without_ledger_entry :
    (stripe_webhook_checkout_completed ⟨0, [], []⟩ 5 1).balance = 5 ∧
    (stripe_webhook_checkout_completed ⟨0, [], []⟩ 5 1).entries = [] ∧
    entriesSum (stripe_webhook_checkout_completed ⟨0, [], []⟩ 5 1) = 0 ∧
    (stripe_webhook_checkout_completed ⟨0, [], []⟩ 5 1).balance ≠
      entriesSum (stripe_webhook_checkout_completed ⟨0, [], []⟩ 5 1) := by
  decide

/-- C9: refuted on server_with_auth.js (same code in
server_email_fixed.js). When the provider fails and the awaited refund RPC
resolves to an error result — the supabase client reports database
failures this way without throwing, and the code discards the resolved
result — the account stays charged (balance 0, the usage debit stands with
no refund entry), no Refund error line is logged, and both the response
and the log lines are identical to those of an execution whose refund
succeeded: the settlement inconsistency is invisible behind the ordinary
provider-failure outcome. -/
theorem refund_error_result_invisible :
    (generateHeadshot_with_auth ⟨1, [], []⟩ true (.err "provider down") .errorResult).store.balance
      = 0 ∧
    (generateHeadshot_with_auth ⟨1, [], []⟩ true (.err "provider down") .errorResult).store.entries
      = [⟨-1, "usage", "Professional headshot generation"⟩] ∧
    "Refund error" ∉
      (generateHeadshot_with_auth ⟨1, [], []⟩ true (.err "provider down") .errorResult).logs ∧
    (generateHeadshot_with_auth ⟨1, [], []⟩ true (.err "provider down") .errorResult).response =
      (generateHeadshot_with_auth ⟨1, [], []⟩ true (.err "provider down") .ok).response ∧
    (generateHeadshot_with_auth ⟨1, [], []⟩ true (.err "provider down") .errorResult).logs =
      (generateHeadshot_with_auth ⟨1, [], []⟩ true (.err "provider down") .ok).logs := by
  decide

/-- C5: with a balance of 0 and cost 1, both server_with_credits.js and
api/auth/generate-headshot.js refuse the request before doing anything:
the response is the insufficient-credits client error, the provider is
never invoked, and the store — balance, ledger entries and generation
records — is exactly unchanged. -/
theorem insufficient_balance_short_circuit (st : Store) (hasFile : Bool)
    (pr : ProviderResult) (h : st.balance = 0) :
    (generateHeadshot_with_credits st hasFile pr).store = st ∧
    (generateHeadshot_with_credits st hasFile pr).response.status = 400 ∧
    Evt.providerCall ∉ (generateHeadshot_with_credits st hasFile pr).events ∧
    (generateHeadshot_api_auth st hasFile pr).store = st ∧
    (generateHeadshot_api_auth st hasFile pr).response.status = 400 ∧
    Evt.providerCall ∉ (generateHeadshot_api_auth st hasFile pr).events := by
  have hb : st.balance < 1 := by omega
  simp [generateHeadshot_with_credits, generateHeadshot_api_auth, hb]

theorem insufficient_balance_short_circuit_witness :
    (⟨0, [], []⟩ : Store).balance = 0 ∧
    ((generateHeadshot_with_credits ⟨0, [], []⟩ true (.ok "u")).store = ⟨0, [], []⟩ ∧
      (generateHeadshot_with_credits ⟨0, [], []⟩ true (.ok "u")).response.status = 400 ∧
      Evt.providerCall ∉ (generateHeadshot_with_credits ⟨0, [], []⟩ true (.ok "u")).events ∧
      (generateHeadshot_api_auth ⟨0, [], []⟩ true (.ok "u")).store = ⟨0, [], []⟩ ∧
      (generateHeadshot_api_auth ⟨0, [], []⟩ true (.ok "u")).response.status = 400 ∧
      Evt.providerCall ∉ (generateHeadshot_api_auth ⟨0, [], []⟩ true (.ok "u")).events) :=
  ⟨rfl, insufficient_balance_short_circuit ⟨0, [], []⟩ true (.ok "u") rfl⟩

/-- C7, counterexample: in server_with_auth.js, reserving cost 1 from
balance 1 and having the provider fail does restore the balance to 1, but
the handler writes no GenerationRecord at all on that path, so the claimed
single failed record does not exist and the claim as stated is false. -/
theorem reserve_fail_writes_no_failed_record :
    ¬ ((generateHeadshot_with_auth ⟨1, [], []⟩ true (.err "boom") .ok).store.balance = 1 ∧
       (recordsWithStatus
          (generateHeadshot_with_auth ⟨1, [], []⟩ true (.err "boom") .ok).store
          "failed").length = 1) := by
  decide

/-- C7, amended: for every starting balance of at least 1 in
server_with_auth.js, reserve cost 1 then provider failure appends the
usage debit of -1 followed by the refund of +1 and returns the balance to
exactly its starting value, but no GenerationRecord of any status is
written for the failed attempt. -/
theorem reserve_fail_round_trip_behavior (st : Store) (h : 1 ≤ st.balance) (msg : String) :
    (generateHeadshot_with_auth st true (.err msg) .ok).store.balance = st.balance ∧
    (generateHeadshot_with_auth st true (.err msg) .ok).store.entries =
      st.entries ++ [⟨-1, "usage", "Professional headshot generation"⟩,
                     ⟨1, "refund", "Refund for failed generation"⟩] ∧
    (generateHeadshot_with_auth st true (.err msg) .ok).store.gens = st.gens := by
  have hb : ¬ st.balance < 1 := by omega
  have h1 := update_user_credits_apply st (-1) "usage" "Professional headshot generation"
    (Or.inr (by omega))
  simp only [generateHeadshot_with_auth, hb, if_false, not_true, Bool.not_true, h1]
  have h2 := update_user_credits_apply
    { st with balance := st.balance + -1,
              entries := st.entries ++ [⟨-1, "usage", "Professional headshot generation"⟩] }
    1 "refund" "Refund for failed generation" (Or.inl (by omega))
  simp only [h2]
  refine ⟨by omega, by simp, by trivial⟩

theorem reserve_fail_round_trip_behavior_witness :
    1 ≤ (⟨1, [], []⟩ : Store).balance ∧
    ((generateHeadshot_with_auth ⟨1, [], []⟩ true (.err "boom") .ok).store.balance =
        (⟨1, [], []⟩ : Store).balance ∧
      (generateHeadshot_with_auth ⟨1, [], []⟩ true (.err "boom") .ok).store.entries =
        ([] : List LedgerEntry) ++ [⟨-1, "usage", "Professional headshot generation"⟩,
                                    ⟨1, "refund", "Refund for failed generation"⟩] ∧
      (generateHeadshot_with_auth ⟨1, [], []⟩ true (.err "boom") .ok).store.gens =
        ([] : List GenerationRecord)) :=
  ⟨by decide, reserve_fail_round_trip_behavior ⟨1, [], []⟩ (by decide) "boom"⟩

/-- C8: for every starting balance of at least 1, a server_with_auth.js
generation whose provider call succeeds ends with the balance decreased by
exactly 1, exactly one completed GenerationRecord carrying the result
reference, and exactly one usage ledger entry of -1 with no refund entry:
the debit stands exactly once. -/
theorem reserve_succeed_charges_exactly_once (n : Int) (h : 1 ≤ n) (url : String) :
    (generateHeadshot_with_auth ⟨n, [], []⟩ true (.ok url) .ok).store.balance = n - 1 ∧
    (generateHeadshot_with_auth ⟨n, [], []⟩ true (.ok url) .ok).store.gens =
      [⟨some url, 1, "completed"⟩] ∧
    (recordsWithStatus (generateHeadshot_with_auth ⟨n, [], []⟩ true (.ok url) .ok).store
      "completed").length = 1 ∧
    (generateHeadshot_with_auth ⟨n, [], []⟩ true (.ok url) .ok).store.entries =
      [⟨-1, "usage", "Professional headshot generation"⟩] ∧
    ((generateHeadshot_with_auth ⟨n, [], []⟩ true (.ok url) .ok).store.entries.filter
      fun e => e.category == "refund") = [] := by
  have hb : ¬ (⟨n, [], []⟩ : Store).balance < 1 := by simpa using by omega
  have h1 := update_user_credits_apply ⟨n, [], []⟩ (-1) "usage"
    "Professional headshot generation" (Or.inr (by simpa using by omega))
  simp only [generateHeadshot_with_auth, hb, if_false, not_true, Bool.not_true, h1]
  refine ⟨by omega, rfl, ?_, by simp, by simp [recordsWithStatus]⟩
  simp [recordsWithStatus]

theorem reserve_succeed_charges_exactly_once_witness :
    1 ≤ (5 : Int) ∧
    ((generateHeadshot_with_auth ⟨5, [], []⟩ true (.ok "img") .ok).store.balance = 5 - 1 ∧
      (generateHeadshot_with_auth ⟨5, [], []⟩ true (.ok "img") .ok).store.gens =
        [⟨some "img", 1, "completed"⟩] ∧
      (recordsWithStatus (generateHeadshot_with_auth ⟨5, [], []⟩ true (.ok "img") .ok).store
        "completed").length = 1 ∧
      (generateHeadshot_with_auth ⟨5, [], []⟩ true (.ok "img") .ok).store.entries =
        [⟨-1, "usage", "Professional headshot generation"⟩] ∧
      ((generateHeadshot_with_auth ⟨5, [], []⟩ true (.ok "img") .ok).store.entries.filter
        fun e => e.category == "refund") = []) :=
  ⟨by decide, reserve_succeed_charges_exactly_once 5 (by decide) "img"⟩

/-- C10, counterexample: the session-status.js execute-then-debit variant
leaves the balance unchanged when the provider throws, but its error
response carries no balance at all, so the claim that the error response
of every execute-then-debit variant reports the pre-request balance is
false at balance 2. -/
theorem session_status_failure_response_lacks_balance :
    (generateHeadshot_session_status ⟨2, [], []⟩ true (.err "boom")).store.balance = 2 ∧
    ¬ ((generateHeadshot_session_status ⟨2, [], []⟩ true (.err "boom")).response.creditsRemaining
        = some (⟨2, [], []⟩ : Store).balance) := by
  decide

/-- C10, amended: in both execute-then-debit variants a provider failure
after a passed balance check leaves the balance exactly unchanged and
writes no ledger entry; the server_with_credits.js variant answers 500
with creditsRemaining equal to the pre-request balance, while the
session-status.js variant answers 500 with no balance field and instead
writes one failed GenerationRecord with no result reference. -/
theorem execute_then_debit_failure_behavior (st : Store) (h : 1 ≤ st.balance) (msg : String) :
    (generateHeadshot_with_credits st true (.err msg)).store = st ∧
    (generateHeadshot_with_credits st true (.err msg)).response.status = 500 ∧
    (generateHeadshot_with_credits st true (.err msg)).response.creditsRemaining =
      some st.balance ∧
    (generateHeadshot_session_status st true (.err msg)).store.balance = st.balance ∧
    (generateHeadshot_session_status st true (.err msg)).store.entries = st.entries ∧
    (generateHeadshot_session_status st true (.err msg)).store.gens =
      st.gens ++ [⟨none, 0, "failed"⟩] ∧
    (generateHeadshot_session_status st true (.err msg)).response.creditsRemaining = none := by
  have hb : ¬ st.balance < 1 := by omega
  simp [generateHeadshot_with_credits, generateHeadshot_session_status, hb]

theorem execute_then_debit_failure_behavior_witness :
    1 ≤ (⟨3, [], []⟩ : Store).balance ∧
    ((generateHeadshot_with_credits ⟨3, [], []⟩ true (.err "boom")).store = ⟨3, [], []⟩ ∧
      (generateHeadshot_with_credits ⟨3, [], []⟩ true (.err "boom")).response.status = 500 ∧
      (generateHeadshot_with_credits ⟨3, [], []⟩ true (.err "boom")).response.creditsRemaining =
        some (⟨3, [], []⟩ : Store).balance ∧
      (generateHeadshot_session_status ⟨3, [], []⟩ true (.err "boom")).store.balance =
        (⟨3, [], []⟩ : Store).balance ∧
      (generateHeadshot_session_status ⟨3, [], []⟩ true (.err "boom")).store.entries =
        ([] : List LedgerEntry) ∧
      (generateHeadshot_session_status ⟨3, [], []⟩ true (.err "boom")).store.gens =
        ([] : List GenerationRecord) ++ [⟨none, 0, "failed"⟩] ∧
      (generateHeadshot_session_status ⟨3, [], []⟩ true (.err "boom")).response.creditsRemaining =
        none) :=
  ⟨by decide, execute_then_debit_failure_behavior ⟨3, [], []⟩ (by decide) "boom"⟩

theorem with_auth_balance_nonneg (st : Store) (f : Bool) (pr : ProviderResult)
    (rf : RpcFault) (h : 0 ≤ st.balance) :
    0 ≤ (generateHeadshot_with_auth st f pr rf).store.balance := by
  cases f with
  | false => simpa [generateHeadshot_with_auth] using h
  | true =>
    by_cases hb : st.balance < 1
    · simpa [generateHeadshot_with_auth, hb] using h
    · have h1 := update_user_credits_apply st (-1) "usage"
        "Professional headshot generation" (Or.inr (by omega))
      cases pr with
      | ok url =>
          simp only [generateHeadshot_with_auth, hb, if_false, not_true, Bool.not_true, h1]
          omega
      | err m =>
        cases rf with
        | ok =>
            have h2 := update_user_credits_apply
              { st with balance := st.balance + -1,
                        entries := st.entries ++
                          [⟨-1, "usage", "Professional headshot generation"⟩] }
              1 "refund" "Refund for failed generation" (Or.inl (by omega))
            simp only [generateHeadshot_with_auth, hb, if_false, not_true, Bool.not_true, h1, h2]
            omega
        | errorResult =>
            simp only [generateHeadshot_with_auth, hb, if_false, not_true, Bool.not_true, h1]
            omega
        | thrown =>
            simp only [generateHeadshot_with_auth, hb, if_false, not_true, Bool.not_true, h1]
            omega

theorem with_credits_balance_nonneg (st : Store) (f : Bool) (pr : ProviderResult)
    (h : 0 ≤ st.balance) :
    0 ≤ (generateHeadshot_with_credits st f pr).store.balance := by
  by_cases hb : st.balance < 1
  · simpa [generateHeadshot_with_credits, hb] using h
  · cases f with
    | false => simpa [generateHeadshot_with_credits, hb] using h
    | true =>
      cases pr with
      | ok url =>
          simp only [generateHeadshot_with_credits, hb, if_false, not_true, Bool.not_true]
          omega
      | err m => simpa [generateHeadshot_with_credits, hb] using h

theorem session_status_balance_nonneg (st : Store) (f : Bool) (pr : ProviderResult)
    (h : 0 ≤ st.balance) :
    0 ≤ (generateHeadshot_session_status st f pr).store.balance := by
  cases f with
  | false => simpa [generateHeadshot_session_status] using h
  | true =>
    by_cases hb : st.balance < 1
    · simpa [generateHeadshot_session_status, hb] using h
    · cases pr with
      | ok url =>
          have h1 := update_user_credits_apply st (-1) "usage"
            "Generated professional headshot" (Or.inr (by omega))
          simp only [generateHeadshot_session_status, hb, if_false, not_true, Bool.not_true, h1]
          omega
      | err m => simpa [generateHeadshot_session_status, hb] using h

theorem api_auth_balance_nonneg (st : Store) (f : Bool) (pr : ProviderResult)
    (h : 0 ≤ st.balance) :
    0 ≤ (generateHeadshot_api_auth st f pr).store.balance := by
  by_cases hb : st.balance < 1
  · simpa [generateHeadshot_api_auth, hb] using h
  · cases f with
    | false => simpa [generateHeadshot_api_auth, hb] using h
    | true =>
      cases pr with
      | ok url =>
          have h1 := update_user_credits_apply st (-1) "usage"
            "Generated professional headshot" (Or.inr (by omega))
          simp only [generateHeadshot_api_auth, hb, if_false, not_true, Bool.not_true, h1]
          omega
      | err m => simpa [generateHeadshot_api_auth, hb] using h

theorem applyOp_balance_nonneg (st : Store) (op : LedgerOp) (h : 0 ≤ st.balance) :
    0 ≤ (applyOp st op).balance := by
  cases op with
  | signup => simp [applyOp]
  | purchasePackage c n =>
      simp only [applyOp, purchase_credits]
      omega
  | purchaseRpc a =>
      by_cases ha : a ≤ 0
      · simpa [applyOp, credits_purchase, ha] using h
      · have h1 := update_user_credits_apply st a "purchase" "Purchased credits"
          (Or.inl (by omega))
        simp only [applyOp, credits_purchase, ha, if_false, h1, if_true]
        omega
  | webhook c q =>
      simp only [applyOp, stripe_webhook_checkout_completed]
      split
      · simp only []
        have hc : (0 : Int) ≤ (c : Int) * (q : Int) := by positivity
        omega
      · exact h
  | genWithAuth f pr rf => exact with_auth_balance_nonneg st f pr rf h
  | genWithCredits f pr => exact with_credits_balance_nonneg st f pr h
  | genSessionStatus f pr => exact session_status_balance_nonneg st f pr h
  | genApiAuth f pr => exact api_auth_balance_nonneg st f pr h

/-- C3: for every finite sequence of the ledger operations of the sources
(signup bonus, the purchase paths, the webhook credit, and the four
generate-headshot variants containing every usage debit and refund)
executed sequentially from a non-negative balance, the stored balance is
never negative after any operation of the sequence: every prefix of a
sequence is itself a sequence, so the result applies at each intermediate
point. -/
theorem balance_nonneg_invariant (ops : List LedgerOp) (st : Store) (h : 0 ≤ st.balance) :
    0 ≤ (ops.foldl applyOp st).balance := by
  induction ops generalizing st with
  | nil => simpa using h
  | cons op rest ih =>
      rw [List.foldl_cons]
      exact ih _ (applyOp_balance_nonneg st op h)

theorem balance_nonneg_invariant_witness :
    0 ≤ (⟨1, [], []⟩ : Store).balance ∧
    0 ≤ (([LedgerOp.genWithAuth true (.err "boom") .ok,
           LedgerOp.genWithCredits true (.ok "img"),
           LedgerOp.webhook 5 1,
           LedgerOp.genApiAuth true (.ok "img")]).foldl applyOp ⟨1, [], []⟩).balance :=
  ⟨by decide, balance_nonneg_invariant _ ⟨1, [], []⟩ (by decide)⟩
